import Mathlib

/-!
Shallow embedding of the StoreFront repository (a Django e-commerce backend).

The relational store is modelled as lists of records; each Django ORM
operation used by the views/serializers becomes an explicit state
transformer.  Decimal money fields (`DecimalField(max_digits=6,
decimal_places=2)`) are represented in integer cents; UUID and integer
primary keys are represented as `Nat`.
-/

namespace StoreFront

/-- `Customer.MEMBERSHIP_CHOICES` from `store/models.py`. -/
inductive MembershipTier
  | bronze
  | silver
  | gold
deriving Repr, DecidableEq

/-- `Order.PAYMENT_STATUS` choices from `store/models.py`. -/
inductive PaymentStatus
  | pending
  | complete
  | failed
deriving Repr, DecidableEq

/-- `Product` model: `unit_price` is `DecimalField(max_digits=6,
decimal_places=2)`, represented in cents. -/
structure Product where
  id : Nat
  title : String
  unit_price : Int
  inventory : Nat
  collection_id : Nat
deriving Repr, DecidableEq

/-- `Collection` model: `featured_product` is a nullable FK to `Product`. -/
structure Collection where
  id : Nat
  title : String
  featured_product : Option Nat
deriving Repr, DecidableEq

/-- `Customer` model: 1:1 with a user account, `membership` defaults to
Bronze. -/
structure Customer where
  id : Nat
  user_id : Nat
  phone : String
  membership : MembershipTier
deriving Repr, DecidableEq

/-- `Order` model: `payment_status` defaults to Pending. -/
structure Order where
  id : Nat
  customer_id : Nat
  payment_status : PaymentStatus
deriving Repr, DecidableEq

/-- `OrderItem` model: product reference and quantity only — no price
field. -/
structure OrderItem where
  id : Nat
  order_id : Nat
  product_id : Nat
  quantity : Nat
deriving Repr, DecidableEq

/-- `Cart` model: UUID primary key, modelled as `Nat`. -/
structure Cart where
  id : Nat
deriving Repr, DecidableEq

/-- `CartItem` model: `unique_together [cart, product]`. -/
structure CartItem where
  id : Nat
  cart_id : Nat
  product_id : Nat
  quantity : Nat
deriving Repr, DecidableEq

/-- The relational store: one list per table, plus auto-increment
counters for the integer primary keys the embedding needs. -/
structure Store where
  products : List Product
  collections : List Collection
  customers : List Customer
  carts : List Cart
  cartItems : List CartItem
  orders : List Order
  orderItems : List OrderItem
  next_order_id : Nat
  next_order_item_id : Nat
  next_cart_item_id : Nat
  next_customer_id : Nat
  next_product_id : Nat
deriving Repr, DecidableEq

/-- Error outcomes of `CreateOrderSerializer`: the two
`serializers.ValidationError`s raised in `validate_cart_id`, and the
`Customer.DoesNotExist` that `Customer.objects.get` can raise in `save`. -/
inductive OrderError
  | cartDoesNotExist
  | cartIsEmpty
  | customerDoesNotExist
deriving Repr, DecidableEq

/-- Which `OrderError`s are DRF validation errors (client-facing 4xx),
as opposed to an unhandled `DoesNotExist` propagating. -/
def OrderError.isValidationError : OrderError → Bool
  | .cartDoesNotExist => true
  | .cartIsEmpty => true
  | .customerDoesNotExist => false

/-- `CreateOrderSerializer.validate_cart_id` (`store/serializers.py`):
error if no cart with that id exists, error if the cart has no items. -/
def validate_cart_id (s : Store) (cart_id : Nat) : Except OrderError Nat :=
  if ¬ s.carts.any (fun c => c.id == cart_id) then
    .error .cartDoesNotExist
  else if (s.cartItems.filter (fun ci => ci.cart_id == cart_id)).length == 0 then
    .error .cartIsEmpty
  else
    .ok cart_id

/-- The list comprehension plus `OrderItem.objects.bulk_create` in
`CreateOrderSerializer.save`: one `OrderItem` per `CartItem`, copying
product and quantity, with sequentially assigned primary keys. -/
def mkOrderItems (order_id : Nat) (next_id : Nat) : List CartItem → List OrderItem
  | [] => []
  | ci :: rest =>
      { id := next_id, order_id := order_id,
        product_id := ci.product_id, quantity := ci.quantity }
        :: mkOrderItems order_id (next_id + 1) rest

/-- The body of `CreateOrderSerializer.save` inside `transaction.atomic()`:
look up the customer for the requesting user, create an `Order` (payment
status defaulted to Pending), copy every `CartItem` of the cart into an
`OrderItem`, bulk-insert them, and delete the cart (cascading its items).
Failure returns the original store untouched, which is exactly the
all-or-nothing guarantee of the enclosing transaction. -/
def createOrderSave (s : Store) (user_id cart_id : Nat) :
    Except OrderError (Store × Nat) :=
  match s.customers.find? (fun c => c.user_id == user_id) with
  | none => .error .customerDoesNotExist
  | some customer =>
      let order : Order :=
        { id := s.next_order_id, customer_id := customer.id,
          payment_status := .pending }
      let cart_items := s.cartItems.filter (fun ci => ci.cart_id == cart_id)
      let order_items := mkOrderItems order.id s.next_order_item_id cart_items
      .ok ({ s with
              orders := s.orders ++ [order],
              orderItems := s.orderItems ++ order_items,
              carts := s.carts.filter (fun c => !(c.id == cart_id)),
              cartItems := s.cartItems.filter (fun ci => !(ci.cart_id == cart_id)),
              next_order_id := s.next_order_id + 1,
              next_order_item_id := s.next_order_item_id + order_items.length },
            order.id)

/-- `OrderViewSet.create`: run `CreateOrderSerializer` validation
(`validate_cart_id`) and then `save`. -/
def createOrder (s : Store) (user_id cart_id : Nat) :
    Except OrderError (Store × Nat) :=
  match validate_cart_id s cart_id with
  | .error e => .error e
  | .ok cid => createOrderSave s user_id cid

/-- The request-level view of order creation: on any failure the
transaction leaves the relational store exactly as it was. -/
def createOrderRun (s : Store) (user_id cart_id : Nat) :
    Store × Except OrderError Nat :=
  match createOrder s user_id cart_id with
  | .ok (s', oid) => (s', .ok oid)
  | .error e => (s, .error e)

/-- `AddCartItemSerializer.save` (`store/serializers.py`): if a `CartItem`
for this (cart, product) pair exists, add the posted quantity to it and
save it back by primary key; otherwise create a new row. -/
def addCartItemSave (s : Store) (cart_id product_id quantity : Nat) : Store :=
  match s.cartItems.find? (fun ci => ci.cart_id == cart_id && ci.product_id == product_id) with
  | some item =>
      { s with cartItems := s.cartItems.map (fun ci =>
          if ci.id == item.id then { ci with quantity := ci.quantity + quantity } else ci) }
  | none =>
      { s with
          cartItems := s.cartItems ++
            [{ id := s.next_cart_item_id, cart_id := cart_id,
               product_id := product_id, quantity := quantity }],
          next_cart_item_id := s.next_cart_item_id + 1 }

/-- HTTP outcomes of the destroy views. `serverError500` stands for an
unhandled `ProtectedError` propagating from `delete()`. -/
inductive HttpResponse
  | noContent204
  | methodNotAllowed405
  | notFound404
  | serverError500
deriving Repr, DecidableEq

/-- `ProductViewSet.destroy` (`store/views.py`): 404 if the product does
not exist; 405 (store unchanged) if any `OrderItem` references it;
otherwise `product.delete()` — `CartItem.product` is `CASCADE`, and
`Collection.featured_product` is `SET_NULL`. -/
def productDestroy (s : Store) (pk : Nat) : Store × HttpResponse :=
  match s.products.find? (fun p => p.id == pk) with
  | none => (s, .notFound404)
  | some _ =>
      if (s.orderItems.filter (fun oi => oi.product_id == pk)).length > 0 then
        (s, .methodNotAllowed405)
      else
        ({ s with
            products := s.products.filter (fun p => !(p.id == pk)),
            cartItems := s.cartItems.filter (fun ci => !(ci.product_id == pk)),
            collections := s.collections.map (fun c =>
              if c.featured_product == some pk then { c with featured_product := none } else c) },
          .noContent204)

/-- `CollectionViewset.destroy` (`store/views.py`): 404 if missing; 405
(store unchanged) if the collection's own `featured_product` is set;
otherwise `collection.delete()`, which raises `ProtectedError` when any
`Product.collection` (an `on_delete=PROTECT` FK) references it. -/
def collectionDestroy (s : Store) (pk : Nat) : Store × HttpResponse :=
  match s.collections.find? (fun c => c.id == pk) with
  | none => (s, .notFound404)
  | some collection =>
      if collection.featured_product.isSome then
        (s, .methodNotAllowed405)
      else if s.products.any (fun p => p.collection_id == pk) then
        (s, .serverError500)
      else
        ({ s with collections := s.collections.filter (fun c => !(c.id == pk)) },
          .noContent204)

/-- `create_customer_for_new_user` (`store/signals/handlers.py`): the
`post_save` receiver on the user model; when `created` is true it runs
`Customer.objects.create(user=instance)`, so `membership` takes its model
default Bronze and `phone` the empty string. -/
def create_customer_for_new_user (s : Store) (user_id : Nat) (created : Bool) : Store :=
  if created then
    { s with
        customers := s.customers ++
          [{ id := s.next_customer_id, user_id := user_id,
             phone := "", membership := .bronze }],
        next_customer_id := s.next_customer_id + 1 }
  else s

/-- `ProductSerializer.update` restricted to the price field: set
`unit_price` on the instance with the given pk and save. -/
def productUpdatePrice (s : Store) (pk : Nat) (unit_price : Int) : Store :=
  { s with products := s.products.map (fun p =>
      if p.id == pk then { p with unit_price := unit_price } else p) }

/-- `UpdateOrderSerializer` applied by PATCH on `OrderViewSet`: its only
field is `payment_status`; it writes the requested status onto the order,
with no check of the current status. -/
def orderUpdateStatus (s : Store) (order_id : Nat) (payment_status : PaymentStatus) : Store :=
  { s with orders := s.orders.map (fun o =>
      if o.id == order_id then { o with payment_status := payment_status } else o) }

/-- `SimpleProductSerializer` output: id, title and the product's current
`unit_price`. -/
structure SimpleProductOut where
  id : Nat
  title : String
  unit_price : Int
deriving Repr, DecidableEq

/-- `OrderItemSerializer` output: the nested `SimpleProductSerializer`
plus the quantity. -/
structure OrderItemOut where
  id : Nat
  quantity : Nat
  product : SimpleProductOut
deriving Repr, DecidableEq

/-- `OrderItemSerializer`: serialize an order item by following its
product FK at serialization time. -/
def serializeOrderItem (s : Store) (oi : OrderItem) : Option OrderItemOut :=
  (s.products.find? (fun p => p.id == oi.product_id)).map (fun p =>
    { id := oi.id, quantity := oi.quantity,
      product := { id := p.id, title := p.title, unit_price := p.unit_price } })

/-- `OrderViewSet.get_queryset` (`store/views.py`): staff users see all
orders; any other user sees the orders of the `Customer` row whose
`user_id` is theirs (`Customer.objects.get` raises if there is none). -/
def orderGetQueryset (s : Store) (user_id : Nat) (is_staff : Bool) :
    Except OrderError (List Order) :=
  if is_staff then .ok s.orders
  else
    match s.customers.find? (fun c => c.user_id == user_id) with
    | none => .error .customerDoesNotExist
    | some customer => .ok (s.orders.filter (fun o => o.customer_id == customer.id))

/-! ### Concrete fixtures used by the witness theorems -/

/-- A product in collection 1, priced 5.00. -/
def exProduct : Product :=
  { id := 10, title := "widget", unit_price := 500, inventory := 3, collection_id := 1 }

/-- A collection with no featured product. -/
def exCollection : Collection :=
  { id := 1, title := "tools", featured_product := none }

/-- The customer of user 42. -/
def exCustomer : Customer :=
  { id := 7, user_id := 42, phone := "", membership := .bronze }

/-- A cart holding 2 units of product 10. -/
def exCart : Cart := { id := 5 }

/-- The single item of `exCart`. -/
def exCartItem : CartItem := { id := 1, cart_id := 5, product_id := 10, quantity := 2 }

/-- A small consistent store: one product, one collection, one customer,
one cart with one item, no orders yet. -/
def exStore : Store :=
  { products := [exProduct], collections := [exCollection], customers := [exCustomer],
    carts := [exCart], cartItems := [exCartItem], orders := [], orderItems := [],
    next_order_id := 1, next_order_item_id := 1, next_cart_item_id := 2,
    next_customer_id := 8, next_product_id := 11 }

/-- `exStore` after user 42 orders cart 5: the cart and its item are
gone, order 1 (Pending) exists with one matching order item. -/
def exStoreOrdered : Store :=
  { products := [exProduct], collections := [exCollection], customers := [exCustomer],
    carts := [], cartItems := [],
    orders := [{ id := 1, customer_id := 7, payment_status := .pending }],
    orderItems := [{ id := 1, order_id := 1, product_id := 10, quantity := 2 }],
    next_order_id := 2, next_order_item_id := 2, next_cart_item_id := 2,
    next_customer_id := 8, next_product_id := 11 }


/-- The order item of `exStoreOrdered`. -/
def exOrderItem : OrderItem := { id := 1, order_id := 1, product_id := 10, quantity := 2 }

/-- A product placed in collection 2 and featured by collection 1. -/
def cexProduct : Product :=
  { id := 10, title := "gadget", unit_price := 300, inventory := 1, collection_id := 2 }

/-- A collection whose own `featured_product` is set (to product 10). -/
def cexFeaturing : Collection := { id := 1, title := "front", featured_product := some 10 }

/-- A collection with no featured product but owning product 10. -/
def cexPlain : Collection := { id := 2, title := "plain", featured_product := none }

/-- A collection with no featured product and no products. -/
def cexEmptyCol : Collection := { id := 3, title := "idle", featured_product := none }

/-- Fixture for the collection-deletion claims: no `featured_product`
field anywhere refers to collection 1, yet collection 1 features a
product of its own. -/
def cexStore : Store :=
  { products := [cexProduct], collections := [cexFeaturing, cexPlain, cexEmptyCol],
    customers := [], carts := [], cartItems := [], orders := [], orderItems := [],
    next_order_id := 1, next_order_item_id := 1, next_cart_item_id := 1,
    next_customer_id := 1, next_product_id := 11 }

/-! ### Helper lemmas -/

theorem mkOrderItems_map_pq (order_id next_id : Nat) (l : List CartItem) :
    (mkOrderItems order_id next_id l).map (fun oi => (oi.product_id, oi.quantity))
      = l.map (fun ci => (ci.product_id, ci.quantity)) := by
  induction l generalizing next_id with
  | nil => rfl
  | cons ci rest ih => simp [mkOrderItems, ih]

theorem mkOrderItems_order_id (order_id next_id : Nat) (l : List CartItem) :
    ∀ oi ∈ mkOrderItems order_id next_id l, oi.order_id = order_id := by
  induction l generalizing next_id with
  | nil => intro oi hmem; cases hmem
  | cons ci rest ih =>
      intro oi hmem
      rcases List.mem_cons.mp hmem with hh | hh
      · subst hh; rfl
      · exact ih (next_id + 1) oi hh


/-! ### Claim theorems -/

/-- C1: creating an order from a non-empty cart (for a user with a
Customer record) succeeds, produces exactly one OrderItem per distinct
CartItem of the cart — same product, same quantity, in order — and
afterwards the cart and all of its CartItems no longer exist. -/
theorem createOrder_from_nonempty_cart (s : Store) (user_id cart_id : Nat) (cust : Customer)
    (hcart : ∃ c ∈ s.carts, c.id = cart_id)
    (hnonempty : ∃ ci ∈ s.cartItems, ci.cart_id = cart_id)
    (hcust : s.customers.find? (fun c => c.user_id == user_id) = some cust)
    (hfresh : ∀ oi ∈ s.orderItems, oi.order_id ≠ s.next_order_id) :
    (∃ r, createOrder s user_id cart_id = Except.ok r)
    ∧ (∀ s' oid, createOrder s user_id cart_id = Except.ok (s', oid) →
        oid = s.next_order_id
        ∧ (s'.orderItems.filter (fun oi => oi.order_id == oid)).map
            (fun oi => (oi.product_id, oi.quantity))
          = (s.cartItems.filter (fun ci => ci.cart_id == cart_id)).map
            (fun ci => (ci.product_id, ci.quantity))
        ∧ (∀ c ∈ s'.carts, c.id ≠ cart_id)
        ∧ (∀ ci ∈ s'.cartItems, ci.cart_id ≠ cart_id)) := by
  have hany : s.carts.any (fun c => c.id == cart_id) = true := by
    rw [List.any_eq_true]
    obtain ⟨c, hc, hceq⟩ := hcart
    exact ⟨c, hc, by simpa using hceq⟩
  have hfil : s.cartItems.filter (fun ci => ci.cart_id == cart_id) ≠ [] := by
    intro hnil
    rw [List.filter_eq_nil_iff] at hnil
    obtain ⟨ci, hci, hcieq⟩ := hnonempty
    exact hnil ci hci (by simpa using hcieq)
  have hlen : ((s.cartItems.filter (fun ci => ci.cart_id == cart_id)).length == 0) = false := by
    rw [beq_eq_false_iff_ne]
    intro h0
    exact hfil (List.length_eq_zero.mp h0)
  have hco : createOrder s user_id cart_id = createOrderSave s user_id cart_id := by
    simp [createOrder, validate_cart_id, hany, hlen]
  constructor
  · rw [hco]
    simp [createOrderSave, hcust]
  · intro s' oid h
    rw [hco] at h
    simp only [createOrderSave, hcust, Except.ok.injEq, Prod.mk.injEq] at h
    obtain ⟨hs', hoid⟩ := h
    subst hs'
    refine ⟨hoid.symm, ?_, ?_, ?_⟩
    · subst hoid
      simp only [List.filter_append, List.map_append]
      have h1 : s.orderItems.filter (fun oi => oi.order_id == s.next_order_id) = [] :=
        List.filter_eq_nil_iff.mpr (fun oi hm => by simpa using hfresh oi hm)
      have h2 : (mkOrderItems s.next_order_id s.next_order_item_id
            (s.cartItems.filter (fun ci => ci.cart_id == cart_id))).filter
            (fun oi => oi.order_id == s.next_order_id)
          = mkOrderItems s.next_order_id s.next_order_item_id
            (s.cartItems.filter (fun ci => ci.cart_id == cart_id)) :=
        List.filter_eq_self.mpr (fun oi hm => by
          simpa using mkOrderItems_order_id _ _ _ oi hm)
      rw [h1, h2, mkOrderItems_map_pq]
      simp
    · intro c hc
      simp only [List.mem_filter, Bool.not_eq_true', beq_eq_false_iff_ne] at hc
      exact hc.2
    · intro ci hci
      simp only [List.mem_filter, Bool.not_eq_true', beq_eq_false_iff_ne] at hci
      exact hci.2

/-- C1 witness: the theorem applied to the concrete fixture store. -/
theorem createOrder_from_nonempty_cart_witness :
    (∃ r, createOrder exStore 42 5 = Except.ok r)
    ∧ (∀ s' oid, createOrder exStore 42 5 = Except.ok (s', oid) →
        oid = exStore.next_order_id
        ∧ (s'.orderItems.filter (fun oi => oi.order_id == oid)).map
            (fun oi => (oi.product_id, oi.quantity))
          = (exStore.cartItems.filter (fun ci => ci.cart_id == 5)).map
            (fun ci => (ci.product_id, ci.quantity))
        ∧ (∀ c ∈ s'.carts, c.id ≠ 5)
        ∧ (∀ ci ∈ s'.cartItems, ci.cart_id ≠ 5)) :=
  createOrder_from_nonempty_cart exStore 42 5 exCustomer
    (by decide) (by decide) (by decide) (by decide)

/-- C2: when order creation fails — unknown cart id, empty cart, or no
Customer record for the requesting user — the store is left exactly as it
was (no Order, no OrderItem, cart untouched), and in the unknown-cart and
empty-cart cases the failure is a validation error. -/
theorem createOrder_failure_leaves_store_unchanged (s : Store) (user_id cart_id : Nat)
    (hfail : (∀ c ∈ s.carts, c.id ≠ cart_id)
           ∨ (∀ ci ∈ s.cartItems, ci.cart_id ≠ cart_id)
           ∨ (∀ c ∈ s.customers, c.user_id ≠ user_id)) :
    (createOrderRun s user_id cart_id).1 = s
    ∧ ∃ e, (createOrderRun s user_id cart_id).2 = Except.error e
        ∧ (((∀ c ∈ s.carts, c.id ≠ cart_id) ∨ (∀ ci ∈ s.cartItems, ci.cart_id ≠ cart_id)) →
            e.isValidationError = true) := by
  by_cases h1 : s.carts.any (fun c => c.id == cart_id) = true
  case neg =>
    have hco : createOrder s user_id cart_id = Except.error .cartDoesNotExist := by
      simp [createOrder, validate_cart_id, h1]
    refine ⟨by simp [createOrderRun, hco], .cartDoesNotExist, by simp [createOrderRun, hco], ?_⟩
    intro _
    rfl
  case pos =>
    by_cases h2 : ((s.cartItems.filter (fun ci => ci.cart_id == cart_id)).length == 0) = true
    case pos =>
      have hco : createOrder s user_id cart_id = Except.error .cartIsEmpty := by
        simp [createOrder, validate_cart_id, h1, h2]
      refine ⟨by simp [createOrderRun, hco], .cartIsEmpty, by simp [createOrderRun, hco], ?_⟩
      intro _
      rfl
    case neg =>
      -- validation passes, so the cart exists and is non-empty; hfail forces the
      -- customer lookup to fail
      have hcust : s.customers.find? (fun c => c.user_id == user_id) = none := by
        rw [List.find?_eq_none]
        rcases hfail with hf | hf | hf
        · exfalso
          rw [List.any_eq_true] at h1
          obtain ⟨c, hc, hceq⟩ := h1
          exact hf c hc (by simpa using hceq)
        · exfalso
          apply h2
          rw [beq_iff_eq, List.length_eq_zero, List.filter_eq_nil_iff]
          intro ci hci
          simpa using hf ci hci
        · intro c hc
          simpa using hf c hc
      have hco : createOrder s user_id cart_id = Except.error .customerDoesNotExist := by
        simp [createOrder, validate_cart_id, h1, h2, createOrderSave, hcust]
      refine ⟨by simp [createOrderRun, hco], .customerDoesNotExist,
        by simp [createOrderRun, hco], ?_⟩
      intro hval
      exfalso
      rcases hval with hf | hf
      · rw [List.any_eq_true] at h1
        obtain ⟨c, hc, hceq⟩ := h1
        exact hf c hc (by simpa using hceq)
      · apply h2
        rw [beq_iff_eq, List.length_eq_zero, List.filter_eq_nil_iff]
        intro ci hci
        simpa using hf ci hci

/-- C2 witness: unknown cart id on the fixture store. -/
theorem createOrder_failure_witness :
    (createOrderRun exStore 42 99).1 = exStore
    ∧ ∃ e, (createOrderRun exStore 42 99).2 = Except.error e
        ∧ (((∀ c ∈ exStore.carts, c.id ≠ 99) ∨ (∀ ci ∈ exStore.cartItems, ci.cart_id ≠ 99)) →
            e.isValidationError = true) :=
  createOrder_failure_leaves_store_unchanged exStore 42 99 (Or.inl (by decide))

theorem filter_eq_singleton_of_find?_uniq {α : Type} {p : α → Bool} {l : List α} {a : α}
    (hfind : l.find? p = some a)
    (huniq : l.Pairwise (fun x y => ¬(p x = true ∧ p y = true))) :
    l.filter p = [a] := by
  induction l with
  | nil => simp at hfind
  | cons x rest ih =>
      rw [List.pairwise_cons] at huniq
      by_cases hx : p x = true
      · rw [List.find?_cons_of_pos _ hx] at hfind
        injection hfind with hfind
        subst hfind
        rw [List.filter_cons_of_pos hx]
        have : rest.filter p = [] := by
          rw [List.filter_eq_nil_iff]
          intro b hb hpb
          exact huniq.1 b hb ⟨hx, hpb⟩
        rw [this]
      · rw [List.find?_cons_of_neg _ hx] at hfind
        rw [List.filter_cons_of_neg hx]
        exact ih hfind huniq.2

/-- C3: adding a cart item for a product that already has a CartItem in
that cart leaves a single CartItem for the (cart, product) pair whose
quantity is the sum of the old and added quantities, and the
one-row-per-(cart, product) invariant is preserved. -/
theorem addCartItem_existing_sums (s : Store) (cart_id product_id quantity : Nat) (item : CartItem)
    (huniq : s.cartItems.Pairwise (fun a b => a.cart_id ≠ b.cart_id ∨ a.product_id ≠ b.product_id))
    (hfind : s.cartItems.find? (fun ci => ci.cart_id == cart_id && ci.product_id == product_id)
      = some item) :
    ((addCartItemSave s cart_id product_id quantity).cartItems.filter
        (fun ci => ci.cart_id == cart_id && ci.product_id == product_id)).map
        (fun ci => ci.quantity)
      = [item.quantity + quantity]
    ∧ (addCartItemSave s cart_id product_id quantity).cartItems.Pairwise
        (fun a b => a.cart_id ≠ b.cart_id ∨ a.product_id ≠ b.product_id) := by
  have hp := List.find?_some hfind
  simp only [Bool.and_eq_true, beq_iff_eq] at hp
  have hone : s.cartItems.filter
      (fun ci => ci.cart_id == cart_id && ci.product_id == product_id) = [item] := by
    apply filter_eq_singleton_of_find?_uniq hfind
    apply huniq.imp
    intro a b hab hcon
    simp only [Bool.and_eq_true, beq_iff_eq] at hcon
    rcases hab with hab | hab
    · exact hab (hcon.1.1.trans hcon.2.1.symm)
    · exact hab (hcon.1.2.trans hcon.2.2.symm)
  have hpres : ∀ ci : CartItem,
      ((if ci.id == item.id then { ci with quantity := ci.quantity + quantity } else ci).cart_id
        = ci.cart_id)
      ∧ ((if ci.id == item.id then { ci with quantity := ci.quantity + quantity } else ci).product_id
        = ci.product_id) := by
    intro ci
    constructor <;> (split <;> rfl)
  unfold addCartItemSave
  rw [hfind]
  constructor
  · rw [List.filter_map]
    have hcg : List.filter ((fun ci => ci.cart_id == cart_id && ci.product_id == product_id) ∘
        (fun ci => if ci.id == item.id then { ci with quantity := ci.quantity + quantity } else ci))
        s.cartItems
        = List.filter (fun ci => ci.cart_id == cart_id && ci.product_id == product_id) s.cartItems := by
      apply List.filter_congr
      intro a _
      simp only [Function.comp_apply]
      rw [(hpres a).1, (hpres a).2]
    rw [hcg, hone]
    simp
  · rw [List.pairwise_map]
    apply huniq.imp
    intro a b hab
    rw [(hpres a).1, (hpres a).2, (hpres b).1, (hpres b).2]
    exact hab

/-- C4: deleting an existing product is rejected with 405, leaving the
store unchanged, iff at least one OrderItem references the product; a
product referenced by no OrderItem is deleted with 204 and removed. -/
theorem productDestroy_spec (s : Store) (pk : Nat) (p : Product)
    (hfind : s.products.find? (fun q => q.id == pk) = some p) :
    (productDestroy s pk = (s, HttpResponse.methodNotAllowed405)
      ↔ ∃ oi ∈ s.orderItems, oi.product_id = pk)
    ∧ ((∀ oi ∈ s.orderItems, oi.product_id ≠ pk) →
        (productDestroy s pk).2 = HttpResponse.noContent204
        ∧ ∀ q ∈ (productDestroy s pk).1.products, q.id ≠ pk) := by
  unfold productDestroy
  rw [hfind]
  by_cases hoi : ∃ oi ∈ s.orderItems, oi.product_id = pk
  · have hlen : (s.orderItems.filter (fun oi => oi.product_id == pk)).length > 0 := by
      obtain ⟨oi, hm, he⟩ := hoi
      have hmem : oi ∈ s.orderItems.filter (fun oi => oi.product_id == pk) :=
        List.mem_filter.mpr ⟨hm, by simpa using he⟩
      exact List.length_pos.mpr (List.ne_nil_of_mem hmem)
    rw [if_pos hlen]
    refine ⟨⟨fun _ => hoi, fun _ => rfl⟩, fun hall => ?_⟩
    obtain ⟨oi, hm, he⟩ := hoi
    exact absurd he (hall oi hm)
  · have hlen : ¬ (s.orderItems.filter (fun oi => oi.product_id == pk)).length > 0 := by
      intro hpos
      obtain ⟨oi, hm⟩ := List.exists_mem_of_length_pos hpos
      rw [List.mem_filter] at hm
      exact hoi ⟨oi, hm.1, by simpa using hm.2⟩
    rw [if_neg hlen]
    constructor
    · constructor
      · intro h
        have h2 := congrArg Prod.snd h
        simp at h2
      · intro h
        exact absurd h hoi
    · intro _
      refine ⟨rfl, ?_⟩
      intro q hq
      simp only [List.mem_filter, Bool.not_eq_true', beq_eq_false_iff_ne] at hq
      exact hq.2

/-- C5 counterexample: no collection's `featured_product` field refers to
collection 1 — `featured_product` refers to products, and none equals 1 —
yet deleting collection 1 fails with 405 and changes nothing, because the
check is on collection 1's own `featured_product`. -/
theorem collectionDestroy_cex :
    (∀ c ∈ cexStore.collections, c.featured_product ≠ some 1)
    ∧ collectionDestroy cexStore 1 = (cexStore, HttpResponse.methodNotAllowed405) := by
  decide

/-- C5 amended: deleting an existing collection fails with 405, leaving
the store unchanged, iff the collection's own `featured_product` is set;
when it is null and no product belongs to the collection, the deletion
succeeds with 204 and removes the collection. -/
theorem collectionDestroy_spec (s : Store) (pk : Nat) (c : Collection)
    (hfind : s.collections.find? (fun x => x.id == pk) = some c) :
    (collectionDestroy s pk = (s, HttpResponse.methodNotAllowed405)
      ↔ c.featured_product.isSome = true)
    ∧ ((c.featured_product = none ∧ ∀ p ∈ s.products, p.collection_id ≠ pk) →
        (collectionDestroy s pk).2 = HttpResponse.noContent204
        ∧ ∀ x ∈ (collectionDestroy s pk).1.collections, x.id ≠ pk) := by
  unfold collectionDestroy
  rw [hfind]
  dsimp only
  by_cases hfs : c.featured_product.isSome = true
  · rw [if_pos hfs]
    refine ⟨⟨fun _ => hfs, fun _ => rfl⟩, fun hcon => ?_⟩
    rw [hcon.1] at hfs
    simp at hfs
  · rw [if_neg hfs]
    by_cases hany : s.products.any (fun p => p.collection_id == pk) = true
    · rw [if_pos hany]
      constructor
      · constructor
        · intro h
          have h2 := congrArg Prod.snd h
          simp at h2
        · intro h
          exact absurd h hfs
      · intro hcon
        exfalso
        rw [List.any_eq_true] at hany
        obtain ⟨p, hp, hpe⟩ := hany
        exact hcon.2 p hp (by simpa using hpe)
    · rw [if_neg hany]
      constructor
      · constructor
        · intro h
          have h2 := congrArg Prod.snd h
          simp at h2
        · intro h
          exact absurd h hfs
      · intro _
        refine ⟨rfl, ?_⟩
        intro x hx
        simp only [List.mem_filter, Bool.not_eq_true', beq_eq_false_iff_ne] at hx
        exact hx.2

/-- C6: a user-save event with `created = true` for a fresh user leaves
exactly one Customer linked to that user, at the default Bronze tier; a
save of an existing user (`created = false`) changes nothing. -/
theorem create_customer_for_new_user_spec (s : Store) (user_id : Nat)
    (hnone : ∀ c ∈ s.customers, c.user_id ≠ user_id) :
    ((create_customer_for_new_user s user_id true).customers.filter
        (fun c => c.user_id == user_id)).map (fun c => c.membership) = [MembershipTier.bronze]
    ∧ create_customer_for_new_user s user_id false = s := by
  constructor
  · unfold create_customer_for_new_user
    rw [if_pos rfl]
    rw [List.filter_append]
    have h1 : s.customers.filter (fun c => c.user_id == user_id) = [] :=
      List.filter_eq_nil_iff.mpr (fun c hc => by simpa using hnone c hc)
    rw [h1]
    simp
  · rfl

/-- C8 counterexample: an order created Pending is updated to Complete and
then back to Pending through the public update operation — a
Complete-to-Pending transition the claim rules out. -/
theorem orderUpdate_complete_to_pending_cex :
    createOrder exStore 42 5 = Except.ok (exStoreOrdered, 1)
    ∧ exStoreOrdered.orders.map (fun o => o.payment_status) = [PaymentStatus.pending]
    ∧ (orderUpdateStatus exStoreOrdered 1 PaymentStatus.complete).orders.map
        (fun o => o.payment_status) = [PaymentStatus.complete]
    ∧ (orderUpdateStatus (orderUpdateStatus exStoreOrdered 1 PaymentStatus.complete) 1
        PaymentStatus.pending).orders.map (fun o => o.payment_status)
        = [PaymentStatus.pending] := by
  refine ⟨rfl, by decide, by decide, by decide⟩

/-- C8 amended: every order is created with payment status Pending, but
the public update operation overwrites the status with any requested
value regardless of the current one, so every transition between the
three statuses is reachable. -/
theorem order_status_spec (s : Store) (user_id cart_id : Nat) (s' : Store) (oid : Nat)
    (ps : PaymentStatus)
    (h : createOrder s user_id cart_id = Except.ok (s', oid)) :
    (∃ o ∈ s'.orders, o.id = oid ∧ o.payment_status = PaymentStatus.pending)
    ∧ (∀ o ∈ (orderUpdateStatus s' oid ps).orders, o.id = oid → o.payment_status = ps) := by
  constructor
  · unfold createOrder at h
    cases hv : validate_cart_id s cart_id with
    | error e => rw [hv] at h; simp at h
    | ok cid =>
        rw [hv] at h
        cases hc : s.customers.find? (fun c => c.user_id == user_id) with
        | none => simp [createOrderSave, hc] at h
        | some cust =>
            simp only [createOrderSave, hc, Except.ok.injEq, Prod.mk.injEq] at h
            obtain ⟨hs', hoid⟩ := h
            subst hs'
            subst hoid
            exact ⟨{ id := s.next_order_id, customer_id := cust.id,
                     payment_status := PaymentStatus.pending }, by simp, rfl, rfl⟩
  · intro o hmem hid
    unfold orderUpdateStatus at hmem
    simp only [List.mem_map] at hmem
    obtain ⟨o0, _, ho⟩ := hmem
    by_cases hcase : (o0.id == oid) = true
    · rw [if_pos hcase] at ho
      subst ho
      rfl
    · rw [if_neg hcase] at ho
      subst ho
      exact absurd hid (by simpa using hcase)

/-- C9: serializing an order item reads the referenced product's current
unit_price at serialization time (no price is stored on the OrderItem
itself), so after the product's price changes, the historical order item
displays the new price. -/
theorem orderItem_serializes_current_price (s : Store) (oi : OrderItem) (p : Product)
    (newPrice : Int)
    (hfind : s.products.find? (fun q => q.id == oi.product_id) = some p) :
    serializeOrderItem s oi = some { id := oi.id,
                                     quantity := oi.quantity,
                                     product := { id := p.id,
                                                  title := p.title,
                                                  unit_price := p.unit_price } }
    ∧ (∀ out, serializeOrderItem (productUpdatePrice s oi.product_id newPrice) oi = some out →
        out.product.unit_price = newPrice) := by
  have hpp : (p.id == oi.product_id) = true :=
    @List.find?_some _ (fun q => q.id == oi.product_id) p s.products hfind
  constructor
  · unfold serializeOrderItem
    rw [hfind]
    rfl
  · intro out hout
    unfold serializeOrderItem productUpdatePrice at hout
    simp only at hout
    rw [List.find?_map] at hout
    have hcomp : ((fun q => q.id == oi.product_id) ∘
        (fun q => if q.id == oi.product_id then { q with unit_price := newPrice } else q))
        = (fun q : Product => q.id == oi.product_id) := by
      funext a
      simp only [Function.comp_apply]
      split <;> rfl
    rw [hcomp, hfind] at hout
    simp only [Option.map_some', hpp, if_true] at hout
    injection hout with hout
    rw [← hout]

/-- C10: a staff user's order listing returns all orders; a non-staff
user's listing returns exactly the orders whose customer is the Customer
record linked to that user, and no others. -/
theorem orderGetQueryset_spec (s : Store) (user_id : Nat) (cust : Customer)
    (hfind : s.customers.find? (fun c => c.user_id == user_id) = some cust) :
    orderGetQueryset s user_id true = Except.ok s.orders
    ∧ ∀ l, orderGetQueryset s user_id false = Except.ok l →
        ∀ o, (o ∈ l ↔ o ∈ s.orders ∧ o.customer_id = cust.id) := by
  constructor
  · rfl
  · intro l hl o
    unfold orderGetQueryset at hl
    rw [if_neg (by simp)] at hl
    rw [hfind] at hl
    simp only [Except.ok.injEq] at hl
    subst hl
    simp [List.mem_filter]

/-- C3 witness: the theorem applied to the fixture cart that already
holds product 10. -/
theorem addCartItem_existing_sums_witness :
    ((addCartItemSave exStore 5 10 3).cartItems.filter
        (fun ci => ci.cart_id == 5 && ci.product_id == 10)).map (fun ci => ci.quantity)
      = [exCartItem.quantity + 3]
    ∧ (addCartItemSave exStore 5 10 3).cartItems.Pairwise
        (fun a b => a.cart_id ≠ b.cart_id ∨ a.product_id ≠ b.product_id) :=
  addCartItem_existing_sums exStore 5 10 3 exCartItem (by decide) (by decide)

/-- C4 witness: the theorem applied to the fixture product, which no
OrderItem references. -/
theorem productDestroy_spec_witness :
    (productDestroy exStore 10 = (exStore, HttpResponse.methodNotAllowed405)
      ↔ ∃ oi ∈ exStore.orderItems, oi.product_id = 10)
    ∧ ((∀ oi ∈ exStore.orderItems, oi.product_id ≠ 10) →
        (productDestroy exStore 10).2 = HttpResponse.noContent204
        ∧ ∀ q ∈ (productDestroy exStore 10).1.products, q.id ≠ 10) :=
  productDestroy_spec exStore 10 exProduct (by decide)

/-- C5 witness: the amended theorem applied to the empty collection 3. -/
theorem collectionDestroy_spec_witness :
    (collectionDestroy cexStore 3 = (cexStore, HttpResponse.methodNotAllowed405)
      ↔ cexEmptyCol.featured_product.isSome = true)
    ∧ ((cexEmptyCol.featured_product = none ∧ ∀ p ∈ cexStore.products, p.collection_id ≠ 3) →
        (collectionDestroy cexStore 3).2 = HttpResponse.noContent204
        ∧ ∀ x ∈ (collectionDestroy cexStore 3).1.collections, x.id ≠ 3) :=
  collectionDestroy_spec cexStore 3 cexEmptyCol (by decide)

/-- C6 witness: the theorem applied to a fresh user id on the fixture. -/
theorem create_customer_for_new_user_spec_witness :
    ((create_customer_for_new_user exStore 43 true).customers.filter
        (fun c => c.user_id == 43)).map (fun c => c.membership) = [MembershipTier.bronze]
    ∧ create_customer_for_new_user exStore 43 false = exStore :=
  create_customer_for_new_user_spec exStore 43 (by decide)

/-- C8 witness: the amended theorem applied to the fixture order. -/
theorem order_status_spec_witness :
    (∃ o ∈ exStoreOrdered.orders, o.id = 1 ∧ o.payment_status = PaymentStatus.pending)
    ∧ (∀ o ∈ (orderUpdateStatus exStoreOrdered 1 PaymentStatus.complete).orders,
        o.id = 1 → o.payment_status = PaymentStatus.complete) :=
  order_status_spec exStore 42 5 exStoreOrdered 1 PaymentStatus.complete rfl

/-- C9 witness: the theorem applied to the fixture order item, with the
product price changed from 500 to 700. -/
theorem orderItem_serializes_current_price_witness :
    serializeOrderItem exStoreOrdered exOrderItem
      = some { id := exOrderItem.id,
               quantity := exOrderItem.quantity,
               product := { id := exProduct.id,
                            title := exProduct.title,
                            unit_price := exProduct.unit_price } }
    ∧ (∀ out, serializeOrderItem (productUpdatePrice exStoreOrdered exOrderItem.product_id 700)
          exOrderItem = some out →
        out.product.unit_price = 700) :=
  orderItem_serializes_current_price exStoreOrdered exOrderItem exProduct 700 (by decide)

/-- C10 witness: the theorem applied to the fixture store and user 42. -/
theorem orderGetQueryset_spec_witness :
    orderGetQueryset exStoreOrdered 42 true = Except.ok exStoreOrdered.orders
    ∧ ∀ l, orderGetQueryset exStoreOrdered 42 false = Except.ok l →
        ∀ o, (o ∈ l ↔ o ∈ exStoreOrdered.orders ∧ o.customer_id = exCustomer.id) :=
  orderGetQueryset_spec exStoreOrdered 42 exCustomer (by decide)


end StoreFront
